import Mathlib

/-!
# Verification of the video-factory pipeline

Shallow embedding of the pure data-flow of the repository's four pipeline
stages (`process_script.py`, `generate_visuals.py`, `generate_voiceover.py`,
`assemble_video.py`) and of the orchestrator `generate_video.py`, together
with theorems settling the spec's claims about them.

Python `float` durations are modelled as `ℚ`: every claim under study is about
the order and identity of the arithmetic operations (running sums built in the
same left-to-right order as the Python code), not about rounding.
File systems are modelled as maps from path stems to abstract content tokens;
external services (Gemini image generation, the TTS subprocess) are modelled
as oracles describing their observable outcome, since the claims quantify over
those outcomes.
-/

namespace VideoFactory

/-- `Scene` dataclass, `process_script.py` lines 18-24: `id`, `text`
(narration), `visual_prompt`, `duration` (seconds).  The dataclass performs no
validation of any field (in particular no positivity check on `duration`). -/
structure Scene where
  id : String
  text : String
  visual_prompt : String
  duration : ℚ
deriving Repr, DecidableEq

/-- A timing marker `{start, end, text}` as emitted by
`generate_timing_markers` (`generate_voiceover.py` lines 112-123).  The JSON
key `end` is a Lean keyword, so the field is called `stop` here. -/
structure TimingMarker where
  start : ℚ
  stop : ℚ
  text : String
deriving Repr, DecidableEq

/-- Default marker used with `List.getD` when indexing marker lists. -/
def dMark : TimingMarker := ⟨0, 0, ""⟩

/-- Default scene used with `List.getD` when indexing scene lists. -/
def dScene : Scene := ⟨"", "", "", 0⟩

/-- The loop of `generate_timing_markers` (`generate_voiceover.py` lines
112-121): the accumulator `t` is the Python variable `current_time`, and each
scene appends `{start: t, end: t + duration, text}` before advancing `t`. -/
def timingGo (t : ℚ) : List Scene → List TimingMarker
  | [] => []
  | s :: rest => ⟨t, t + s.duration, s.text⟩ :: timingGo (t + s.duration) rest

/-- `generate_timing_markers(scenes)` (`generate_voiceover.py` lines 102-123):
runs the accumulation loop starting from `current_time = 0.0`. -/
def generate_timing_markers (scenes : List Scene) : List TimingMarker :=
  timingGo 0 scenes

/-- Sum of the declared durations of the first `i` scenes. -/
def prefixDur (scenes : List Scene) (i : Nat) : ℚ :=
  ((scenes.take i).map Scene.duration).sum

/-- JSON leaf values occurring in `script.json`: every field of a `Scene` is a
string or a number. -/
inductive JsonVal where
  | str (s : String)
  | num (q : ℚ)
deriving Repr, DecidableEq

/-- A JSON object, as an ordered association list of key/value pairs. -/
abbrev JsonObj := List (String × JsonVal)

/-- The field names of the `Scene` dataclass, in declaration order. -/
def sceneFieldNames : List String := ["id", "text", "visual_prompt", "duration"]

/-- `dataclasses.asdict(scene)`: the object written for one scene by
`save_scenes` (`process_script.py` line 139). -/
def asdict (s : Scene) : JsonObj :=
  [("id", .str s.id), ("text", .str s.text),
   ("visual_prompt", .str s.visual_prompt), ("duration", .num s.duration)]

/-- `save_scenes(scenes, path)` (`process_script.py` lines 137-142).  The JSON
file content is modelled as the list of objects itself: `json.dump` with
`ensure_ascii=False` followed by `json.load` reproduces these values exactly,
so the file layer adds nothing the claims depend on. -/
def save_scenes (scenes : List Scene) : List JsonObj :=
  scenes.map asdict

/-- First value bound to key `k`, provided it is a JSON string. -/
def lookupStr (d : JsonObj) (k : String) : Option String :=
  match d.find? (fun kv => kv.1 == k) with
  | some (_, .str s) => some s
  | _ => none

/-- First value bound to key `k`, provided it is a JSON number. -/
def lookupNum (d : JsonObj) (k : String) : Option ℚ :=
  match d.find? (fun kv => kv.1 == k) with
  | some (_, .num q) => some q
  | _ => none

/-- Python-level call failures relevant here. -/
inductive PyError where
  | typeError
deriving Repr, DecidableEq

/-- `Scene(**scene_dict)` (`process_script.py` line 150): keyword binding
raises `TypeError` when the object holds a key that is not a `Scene` field or
lacks one of the four fields.  No validation of the field values themselves is
performed (the dataclass has no `__post_init__`); the typed extraction below
mirrors the value shapes `save_scenes` writes, which are the shapes this
loader is applied to. -/
def sceneOfDict (d : JsonObj) : Except PyError Scene :=
  if d.all (fun kv => sceneFieldNames.contains kv.1) then
    match lookupStr d "id", lookupStr d "text",
          lookupStr d "visual_prompt", lookupNum d "duration" with
    | some i, some t, some v, some q => .ok ⟨i, t, v, q⟩
    | _, _, _, _ => .error .typeError
  else .error .typeError

/-- `load_scenes(path)` (`process_script.py` lines 145-152): reads the array
back and rebuilds one `Scene` per object, failing on the first object that
does not bind. -/
def load_scenes (data : List JsonObj) : Except PyError (List Scene) :=
  data.mapM sceneOfDict

/-- Python `sep.join(parts)`: empty string for no parts, otherwise the parts
with `sep` inserted between consecutive parts (also between empty parts). -/
def pyJoin (sep : String) : List String → String
  | [] => ""
  | [x] => x
  | x :: xs => x ++ sep ++ pyJoin sep xs

/-- Python `sum(iterable)`: a left fold of `+` starting from `0`, in iteration
order — the same operation order as the marker loop's `current_time`. -/
def pySum (l : List ℚ) : ℚ := l.foldl (· + ·) 0

/-- Fixed location of the external TTS helper (`generate_voiceover.py`
line 48). -/
def ttsScriptPath : String := "~/clawd/scripts/gemini-tts.sh"

/-- TTS model identifier (`generate_voiceover.py` line 58). -/
def ttsModel : String := "gemini-2.5-flash-preview-tts"

/-- Observable outcome of the external TTS environment for one run: whether
the helper script is on disk, whether the subprocess exits with status 0, and
whether the expected audio file exists afterwards. -/
structure TtsEnv where
  scriptExists : Bool
  cmdOk : Bool
  outputCreated : Bool
deriving Repr, DecidableEq

/-- The success payload of `generate_voiceover` (`generate_voiceover.py`
lines 87-91). -/
structure VoiceoverResult where
  audio_path : String
  timing_data : List TimingMarker
  duration : ℚ
deriving Repr, DecidableEq

/-- The keys of the dict literal returned at `generate_voiceover.py`
lines 87-91, in order. -/
def voiceoverPayloadKeys : List String := ["audio_path", "timing_data", "duration"]

/-- Failure modes of `generate_voiceover`: missing helper script (line 51),
non-zero subprocess exit (lines 95-99), missing output file (line 93). -/
inductive VoiceoverError where
  | scriptNotFound
  | ttsFailed
  | outputMissing
deriving Repr, DecidableEq

/-- `generate_voiceover(scenes, output_path, voice, lang)`
(`generate_voiceover.py` lines 20-99).  `lang` is accepted but unused by the
body (only `voice` and the fixed model reach the command).  On success the
function returns the command line passed to the subprocess (line 61-68 —
element 2 is the combined narration text) together with the result payload. -/
def generate_voiceover (scenes : List Scene) (output_path : String)
    (voice : String) (env : TtsEnv) :
    Except VoiceoverError (List String × VoiceoverResult) :=
  let full_text := pyJoin " " (scenes.map Scene.text)
  if env.scriptExists then
    let cmd := ["bash", ttsScriptPath, full_text, output_path, ttsModel, voice]
    if env.cmdOk then
      if env.outputCreated then
        .ok (cmd, ⟨output_path, generate_timing_markers scenes,
                   pySum (scenes.map Scene.duration)⟩)
      else .error .outputMissing
    else .error .ttsFailed
  else .error .scriptNotFound

/-- The keyword-relevant shape of a Python function signature: required
parameters and parameters with defaults. -/
structure PySignature where
  required : List String
  optional : List String
deriving Repr, DecidableEq

/-- Parameters of `generate_voiceover` (`generate_voiceover.py` lines 20-25):
`scenes` and `output_path` are required, `voice` and `lang` have defaults. -/
def generate_voiceover_sig : PySignature :=
  ⟨["scenes", "output_path"], ["voice", "lang"]⟩

/-- The keyword arguments `main` supplies at the stage-3 call site
(`generate_video.py` lines 113-119). -/
def main_stage3_kwargs : List String :=
  ["scenes", "output_dir", "voice", "lang", "combine"]

/-- Python keyword binding for a function without `**kwargs`: the call enters
the body iff every supplied keyword names a declared parameter and every
required parameter is supplied; otherwise `TypeError` is raised at the call
site. -/
def kwBindOk (sig : PySignature) (kwargs : List String) : Bool :=
  kwargs.all (fun k => (sig.required ++ sig.optional).contains k) &&
  sig.required.all (fun p => kwargs.contains p)

/-- Observable outcome of one `main()` run: the returned exit code and whether
control ever reached stage 4 (the `assemble_video` call at
`generate_video.py` lines 139-146). -/
structure MainRun where
  exitCode : Nat
  reachedStage4 : Bool
deriving Repr, DecidableEq

/-- The `try` block of `main()` (`generate_video.py` lines 80-177), as a
function of the outcomes of the stages that precede the stage-3 call site:
`stage1Ok` — `process_script` returned a scene list without raising;
`stage2Ok` — `generate_visuals` returned without raising (its boolean result
only selects a warning, lines 104-105, and cannot stop the run).  Any raised
exception is caught by the generic handler at lines 173-177, which returns 1.
Stage 3 first performs the keyword call to `generate_voiceover` (lines
113-119), then reads `voiceover_result['total_duration']` (line 126); stage 4
is reached only if both succeed. -/
def mainModel (stage1Ok stage2Ok : Bool) : MainRun :=
  if !stage1Ok then ⟨1, false⟩
  else if !stage2Ok then ⟨1, false⟩
  else if !(kwBindOk generate_voiceover_sig main_stage3_kwargs) then ⟨1, false⟩
  else if !(voiceoverPayloadKeys.contains "total_duration") then ⟨1, false⟩
  else ⟨0, true⟩

/-- Observable behaviour of the image service for one scene
(`generate_visuals.py` lines 45-89): a non-empty response whose first image is
saved (`success`), a response with an empty `images` list (`emptyResponse`,
lines 81-83), or a raised exception caught by the bare handler
(`genError`, lines 85-89). -/
inductive GenOutcome where
  | success
  | emptyResponse
  | genError
deriving Repr, DecidableEq

/-- A directory of image files: path stem (scene id) to abstract content
token, `none` when the file does not exist. -/
abbrev FileMap := String → Option Nat

/-- Writing a file: later reads of the same path see the new content. -/
def writeFile (fs : FileMap) (p : String) (c : Nat) : FileMap :=
  fun q => if q == p then some c else fs q

/-- Environment of one `generate_visuals` run: the per-scene service outcome,
the content the service or the placeholder renderer would write, and whether
`GOOGLE_GEMINI_API_KEY` is set. -/
structure GenEnv where
  outcome : String → GenOutcome
  genContent : String → Nat
  placeholderContent : String → Nat
  apiKeyPresent : Bool

/-- `generate_image(prompt, output_path)` (`generate_visuals.py` lines 33-89),
keyed here by the scene id owning the output path: on `success` the image
bytes are written and `True` returned; on an empty response nothing is written
and `False` returned (lines 81-83); on a caught exception `create_placeholder`
(lines 92-116) writes a locally rendered placeholder and `False` is returned.
Every service exception is caught by the bare `except` at line 85, so the
function itself never raises. -/
def generate_image (env : GenEnv) (sid : String) (fs : FileMap) : FileMap × Bool :=
  match env.outcome sid with
  | .success => (writeFile fs sid (env.genContent sid), true)
  | .emptyResponse => (fs, false)
  | .genError => (writeFile fs sid (env.placeholderContent sid), false)

/-- State threaded through the scene loop of `generate_visuals`: the directory
contents, the scene ids for which a generation request was issued (in order),
and `success_count`. -/
structure VisState where
  fs : FileMap
  requests : List String
  successCount : Nat

/-- The scene loop of `generate_visuals` (`generate_visuals.py` lines
140-160): a scene whose `{id}.png` already exists is skipped and counted as a
success (lines 147-150) with no request issued; otherwise `generate_image`
runs and a success increments the counter.  The inter-call `time.sleep` has no
observable effect on the state and is not modelled. -/
def visLoop (env : GenEnv) : List Scene → VisState → VisState
  | [], st => st
  | s :: rest, st =>
    if (st.fs s.id).isSome then
      visLoop env rest ⟨st.fs, st.requests, st.successCount + 1⟩
    else
      let r := generate_image env s.id st.fs
      visLoop env rest
        ⟨r.1, st.requests ++ [s.id],
         if r.2 then st.successCount + 1 else st.successCount⟩

/-- The only exception `generate_visuals` can surface: `setup_gemini`
(`generate_visuals.py` lines 23-30) raises `ValueError` when
`GOOGLE_GEMINI_API_KEY` is absent. -/
inductive VisualsError where
  | configuration
deriving Repr, DecidableEq

/-- `generate_visuals(scenes, output_dir, delay)` (`generate_visuals.py` lines
119-163): after `setup_gemini`, runs the scene loop and returns
`success_count == len(scenes)` together with the final state. -/
def generate_visuals (env : GenEnv) (scenes : List Scene) (fs : FileMap) :
    Except VisualsError (VisState × Bool) :=
  if env.apiKeyPresent then
    let st := visLoop env scenes ⟨fs, [], 0⟩
    .ok (st, st.successCount == scenes.length)
  else .error .configuration

/-- Projection of a `generate_visuals` result used to state concrete facts
without comparing function-valued states: success count, content at one path,
requests issued, and the returned boolean; `none` when an exception was
raised. -/
def visView (r : Except VisualsError (VisState × Bool)) (p : String) :
    Option (Nat × Option Nat × List String × Bool) :=
  match r with
  | .ok (st, b) => some (st.successCount, st.fs p, st.requests, b)
  | .error _ => none

/-- One record of the timing table consumed by the assembly stage
(`assemble_video.py` lines 49-51): the scene id and the declared display
duration. -/
structure TimingEntry where
  scene_id : String
  duration : ℚ
deriving Repr, DecidableEq

/-- One segment of the assembled video: an image clip identified by its scene
id, displayed for its declared duration (the `ImageClip` of
`assemble_video.py` line 63, after the resize of line 66). -/
structure Clip where
  scene_id : String
  duration : ℚ
deriving Repr, DecidableEq

/-- The clip-collection loop of `create_video_from_scenes`
(`assemble_video.py` lines 47-68): an entry whose image file is missing is
skipped with a warning (lines 56-58); a present entry contributes one clip of
its declared duration, in table order. -/
def collectClips (avail : String → Bool) : List TimingEntry → List Clip
  | [] => []
  | t :: rest =>
    if avail t.scene_id then ⟨t.scene_id, t.duration⟩ :: collectClips avail rest
    else collectClips avail rest

/-- `create_video_from_scenes` (`assemble_video.py` lines 21-89): the video is
modelled as the ordered list of concatenated clips (`concatenate_videoclips`,
line 76).  When zero clips were collected the function returns `None` (lines
70-72); the `except` block at lines 85-89 likewise converts any library error
to `None` and is not modelled separately since the claims under study only
concern the zero-clip path. -/
def create_video_from_scenes (avail : String → Bool)
    (timing : List TimingEntry) : Option (List Clip) :=
  let clips := collectClips avail timing
  if clips.isEmpty then none else some clips

/-- The entries of the timing table whose image file is present, as clips, in
original order — the spec-side description of what assembly keeps. -/
def presentEntries (avail : String → Bool) (timing : List TimingEntry) : List Clip :=
  (timing.filter (fun t => avail t.scene_id)).map (fun t => ⟨t.scene_id, t.duration⟩)

/-- The only uncaught exception in `assemble_video`: the `open`/`json.load` of
the timing file (`assemble_video.py` lines 204-205) sits outside every `try`
block. -/
inductive AssembleError where
  | timingFileUnreadable
deriving Repr, DecidableEq

/-- `assemble_video(scenes_dir, audio_path, timing_json_path, output_path)`
(`assemble_video.py` lines 176-234): loads the timing table (`none` models an
unreadable file and raises), builds the video, and returns `False` when
`create_video_from_scenes` returned `None` (lines 217-218); otherwise the
result is the boolean outcome of `export_video` (`add_audio_to_video` returns
the video even when the audio fails to load, lines 118-122, so it cannot fail
the run). -/
def assemble_video (timingFile : Option (List TimingEntry))
    (avail : String → Bool) (exportOk : Bool) : Except AssembleError Bool :=
  match timingFile with
  | none => .error .timingFileUnreadable
  | some timing =>
    match create_video_from_scenes avail timing with
    | none => .ok false
    | some _ => .ok exportOk

/-- Two concrete scenes used to instantiate hypotheses of the theorems below
(the spec's end-to-end scenario, section 8). -/
def demoScenes : List Scene :=
  [⟨"scene-001", "Hello world.", "prompt one", 4⟩,
   ⟨"scene-002", "This is a test of video generation.", "prompt two", 4⟩]

/-- The empty image directory. -/
def emptyFs : FileMap := fun _ => none

/-- A service environment whose every response carries no image. -/
def envEmptyResp : GenEnv :=
  ⟨fun _ => GenOutcome.emptyResponse, fun _ => 100, fun _ => 200, true⟩

/-- A service environment that raises on every request. -/
def envErr : GenEnv :=
  ⟨fun _ => GenOutcome.genError, fun _ => 100, fun _ => 200, true⟩

/-- A service environment that succeeds on every request. -/
def envOk : GenEnv :=
  ⟨fun _ => GenOutcome.success, fun _ => 100, fun _ => 200, true⟩

/-- A populated image directory holding a file for every demo scene id. -/
def demoFs : FileMap :=
  fun p => if p == "scene-001" then some 11 else if p == "scene-002" then some 12 else none

/-- A partially populated image directory: only the first demo scene's file
exists. -/
def demoFsPartial : FileMap :=
  fun p => if p == "scene-001" then some 11 else none

/-- A raw `script.json` object carrying a zero duration. -/
def zeroDurObj : JsonObj :=
  [("id", .str "scene-001"), ("text", .str ""),
   ("visual_prompt", .str "p"), ("duration", .num 0)]

/-- A three-entry timing table (the spec's missing-image scenario). -/
def timing3 : List TimingEntry :=
  [⟨"scene-001", 4⟩, ⟨"scene-002", 4⟩, ⟨"scene-003", 2⟩]

/-- Image availability with entry 2's file absent. -/
def avail3 : String → Bool :=
  fun p => p == "scene-001" || p == "scene-003"

theorem timingGo_length (scenes : List Scene) : ∀ t, (timingGo t scenes).length = scenes.length := by
  induction scenes with
  | nil => intro t; rfl
  | cons s rest ih => intro t; simp [timingGo, ih]

theorem generate_timing_markers_length (scenes : List Scene) :
    (generate_timing_markers scenes).length = scenes.length :=
  timingGo_length scenes 0

theorem timingGo_getD (scenes : List Scene) :
    ∀ t i, i < scenes.length →
      (timingGo t scenes).getD i dMark =
        ⟨t + prefixDur scenes i,
         t + prefixDur scenes i + (scenes.getD i dScene).duration,
         (scenes.getD i dScene).text⟩ := by
  induction scenes with
  | nil => intro t i hi; simp at hi
  | cons s rest ih =>
    intro t i hi
    cases i with
    | zero => simp [timingGo, prefixDur]
    | succ i =>
      have hi' : i < rest.length := by simpa using hi
      have h := ih (t + s.duration) i hi'
      simp only [timingGo, List.getD_cons_succ, h, prefixDur, List.take_succ_cons,
        List.map_cons, List.sum_cons, TimingMarker.mk.injEq]
      refine ⟨by ring, by ring, trivial⟩

theorem timingGo_last (scenes : List Scene) (hne : scenes ≠ []) :
    ∀ t, ((timingGo t scenes).getD (scenes.length - 1) dMark).stop =
          t + (scenes.map Scene.duration).sum := by
  induction scenes with
  | nil => exact absurd rfl hne
  | cons s rest ih =>
    intro t
    cases rest with
    | nil => simp [timingGo]
    | cons r rs =>
      have h := ih (by simp) (t + s.duration)
      have hstep : timingGo t (s :: r :: rs) =
          ⟨t, t + s.duration, s.text⟩ :: timingGo (t + s.duration) (r :: rs) := rfl
      have hlen : (s :: r :: rs).length - 1 = rs.length + 1 := by simp
      have hlen2 : (r :: rs).length - 1 = rs.length := by simp
      rw [hstep, hlen, List.getD_cons_succ]
      rw [hlen2] at h
      rw [h]
      simp only [List.map_cons, List.sum_cons]
      ring

/-- Claim C1: for scenes with durations `d_0..d_{n-1}`,
`generate_timing_markers` returns exactly `n` markers; marker `i` starts at
the sum of `d_0..d_{i-1}` (so marker 0 starts at 0), ends at its start plus
`d_i`, carries scene `i`'s text, and the last marker ends at the total
declared duration. -/
theorem timing_markers_cumulative (scenes : List Scene) :
    (generate_timing_markers scenes).length = scenes.length ∧
    (∀ i, i < scenes.length →
      ((generate_timing_markers scenes).getD i dMark).start = prefixDur scenes i ∧
      ((generate_timing_markers scenes).getD i dMark).stop =
        ((generate_timing_markers scenes).getD i dMark).start +
          (scenes.getD i dScene).duration ∧
      ((generate_timing_markers scenes).getD i dMark).text =
        (scenes.getD i dScene).text) ∧
    (scenes ≠ [] →
      ((generate_timing_markers scenes).getD (scenes.length - 1) dMark).stop =
        (scenes.map Scene.duration).sum) := by
  refine ⟨generate_timing_markers_length scenes, ?_, ?_⟩
  · intro i hi
    have h := timingGo_getD scenes 0 i hi
    rw [generate_timing_markers] at *
    rw [h]
    exact ⟨by simp, rfl, rfl⟩
  · intro hne
    have h := timingGo_last scenes hne 0
    rw [generate_timing_markers, h, zero_add]

/-- Witness for C1 at the two demo scenes, instantiating the per-index part
at `i = 1` and the last-marker part. -/
theorem timing_markers_cumulative_witness :
    ((generate_timing_markers demoScenes).getD 1 dMark).start =
        prefixDur demoScenes 1 ∧
    ((generate_timing_markers demoScenes).getD (demoScenes.length - 1) dMark).stop =
        (demoScenes.map Scene.duration).sum := by
  have h := timing_markers_cumulative demoScenes
  exact ⟨(h.2.1 1 (by decide)).1, h.2.2 (by decide)⟩

theorem sceneOfDict_asdict (s : Scene) : sceneOfDict (asdict s) = .ok s := rfl

/-- Claim C2: serializing any scene list with `save_scenes` and deserializing
the result with `load_scenes` yields the identical list of `Scene` records,
field for field and in order (empty narration strings included: no field is
inspected). -/
theorem save_load_roundtrip (scenes : List Scene) :
    load_scenes (save_scenes scenes) = .ok scenes := by
  induction scenes with
  | nil => rfl
  | cons s rest ih =>
    simp only [save_scenes, load_scenes, List.map_cons, List.mapM_cons,
      sceneOfDict_asdict] at *
    rw [ih]
    rfl

/-- Counterexample to claim C9: deserializing a scene object whose declared
duration is `0` does not fail — it produces a `Scene` record with
`duration = 0`. -/
theorem zero_duration_scene_accepted_cx :
    load_scenes [zeroDurObj] = .ok [⟨"scene-001", "", "p", 0⟩] := rfl

/-- Claim C9 as amended: no component validates positivity of `duration`.  A
scene with any non-positive duration is constructed, serialized and
deserialized successfully. -/
theorem zero_duration_scene_not_rejected (i t v : String) (q : ℚ) (_hq : q ≤ 0) :
    load_scenes (save_scenes [⟨i, t, v, q⟩]) = .ok [⟨i, t, v, q⟩] := by
  simp only [save_scenes, load_scenes, List.map_cons, List.map_nil,
    List.mapM_cons, sceneOfDict_asdict]
  rfl

/-- Witness for the amended C9 at a concrete zero-duration scene. -/
theorem zero_duration_scene_not_rejected_witness :
    load_scenes (save_scenes [⟨"scene-001", "", "p", 0⟩]) =
      .ok [⟨"scene-001", "", "p", 0⟩] :=
  zero_duration_scene_not_rejected "scene-001" "" "p" 0 (le_refl 0)

theorem pyJoin_shift (sep : String) :
    ∀ (as : List String) (x a : String),
      pyJoin sep ((x ++ sep ++ a) :: as) = x ++ sep ++ pyJoin sep (a :: as) := by
  intro as
  cases as with
  | nil => intro x a; rfl
  | cons b bs => intro x a; simp [pyJoin, String.append_assoc]

theorem intercalate_go_eq (sep : String) :
    ∀ (l : List String) (acc : String),
      String.intercalate.go acc sep l = pyJoin sep (acc :: l) := by
  intro l
  induction l with
  | nil => intro acc; rfl
  | cons a as ih =>
    intro acc
    rw [String.intercalate.go, ih (acc ++ sep ++ a), pyJoin_shift]
    rfl

/-- The Python `" ".join` loop agrees with `String.intercalate`. -/
theorem pyJoin_eq_intercalate (sep : String) (l : List String) :
    pyJoin sep l = String.intercalate sep l := by
  cases l with
  | nil => rfl
  | cons a as => rw [String.intercalate, intercalate_go_eq]

theorem foldl_add_eq_sum (l : List ℚ) : ∀ a : ℚ, l.foldl (· + ·) a = a + l.sum := by
  induction l with
  | nil => intro a; simp
  | cons x xs ih =>
    intro a
    simp only [List.foldl_cons, List.sum_cons, ih (a + x)]
    ring

/-- The Python `sum` of the declared durations equals the list sum. -/
theorem pySum_eq_sum (l : List ℚ) : pySum l = l.sum := by
  rw [pySum, foldl_add_eq_sum, zero_add]

/-- Claim C10: for a non-empty scene list and an environment in which the TTS
helper exists, the subprocess succeeds and the output file appears,
`generate_voiceover` passes the scenes' texts joined by single spaces in
order as the text argument of the command (element 2), and returns the audio
path, the timing table of `generate_timing_markers`, and the sum of the
declared durations. -/
theorem voiceover_text_and_payload (scenes : List Scene)
    (out voice : String) (env : TtsEnv) (_hne : scenes ≠ [])
    (hs : env.scriptExists = true) (hc : env.cmdOk = true)
    (ho : env.outputCreated = true) :
    generate_voiceover scenes out voice env =
      .ok (["bash", ttsScriptPath,
            String.intercalate " " (scenes.map Scene.text), out, ttsModel, voice],
           ⟨out, generate_timing_markers scenes, (scenes.map Scene.duration).sum⟩) := by
  rw [generate_voiceover]
  simp only [hs, hc, ho, if_true]
  rw [pyJoin_eq_intercalate, pySum_eq_sum]

/-- Witness for C10 at the demo scenes with an all-good environment. -/
theorem voiceover_text_and_payload_witness :
    generate_voiceover demoScenes "voiceover.wav" "fenrir" ⟨true, true, true⟩ =
      .ok (["bash", ttsScriptPath,
            "Hello world. This is a test of video generation.",
            "voiceover.wav", ttsModel, "fenrir"],
           ⟨"voiceover.wav",
            [⟨0, 4, "Hello world."⟩, ⟨4, 8, "This is a test of video generation."⟩],
            8⟩) := by
  have h := voiceover_text_and_payload demoScenes "voiceover.wav" "fenrir"
    ⟨true, true, true⟩ (by decide) rfl rfl rfl
  rw [h]
  have h1 : String.intercalate " " (demoScenes.map Scene.text) =
      "Hello world. This is a test of video generation." := rfl
  have h2 : generate_timing_markers demoScenes =
      [⟨0, 4, "Hello world."⟩, ⟨4, 8, "This is a test of video generation."⟩] := by
    simp only [demoScenes, generate_timing_markers, timingGo]
    norm_num
  have h3 : (demoScenes.map Scene.duration).sum = 8 := by
    simp only [demoScenes, List.map_cons, List.map_nil, List.sum_cons, List.sum_nil]
    norm_num
  rw [h1, h2, h3]

/-- Claim C3: the stage-3 call site of `main` supplies the keywords
`output_dir` and `combine`, which `generate_voiceover` does not declare, so
keyword binding fails with `TypeError`; the payload moreover has no
`total_duration` key; hence whatever the earlier stages did, `main` returns
exit code 1 through its generic exception handler and never reaches the
stage-4 `assemble_video` call. -/
theorem main_stage3_type_error :
    kwBindOk generate_voiceover_sig main_stage3_kwargs = false ∧
    voiceoverPayloadKeys.contains "total_duration" = false ∧
    ∀ stage1Ok stage2Ok : Bool, mainModel stage1Ok stage2Ok = ⟨1, false⟩ := by
  refine ⟨rfl, rfl, ?_⟩
  intro s1 s2
  cases s1 <;> cases s2 <;> rfl

theorem not_mem_map_id {rest : List Scene} {x : String}
    (h : x ∉ rest.map Scene.id) : ∀ r ∈ rest, r.id ≠ x := by
  intro r hr heq
  exact h (List.mem_map.mpr ⟨r, hr, heq⟩)

theorem visLoop_fs_outside (env : GenEnv) :
    ∀ (scenes : List Scene) (st : VisState) (p : String),
      p ∉ scenes.map Scene.id → (visLoop env scenes st).fs p = st.fs p := by
  intro scenes
  induction scenes with
  | nil => intro st p _; rfl
  | cons s rest ih =>
    intro st p hp
    rw [List.map_cons, List.mem_cons, not_or] at hp
    obtain ⟨hps, hrest⟩ := hp
    rw [visLoop]
    by_cases hfs : (st.fs s.id).isSome
    · rw [if_pos hfs]
      exact ih _ p hrest
    · rw [if_neg hfs]
      have hw : ∀ c, writeFile st.fs s.id c p = st.fs p := by
        intro c
        rw [writeFile]
        simp [hps]
      cases ho : env.outcome s.id <;>
        simp only [generate_image, ho] <;> rw [ih _ p hrest] <;> simp [hw]

theorem visLoop_count (env : GenEnv) :
    ∀ (scenes : List Scene) (st : VisState),
      (scenes.map Scene.id).Nodup →
      (visLoop env scenes st).successCount =
        st.successCount + scenes.countP
          (fun s => (st.fs s.id).isSome || env.outcome s.id == GenOutcome.success) := by
  intro scenes
  induction scenes with
  | nil => intro st _; simp [visLoop]
  | cons s rest ih =>
    intro st hnd
    rw [List.map_cons, List.nodup_cons] at hnd
    obtain ⟨hs, hrest⟩ := hnd
    rw [visLoop, List.countP_cons]
    by_cases hfs : (st.fs s.id).isSome
    · rw [if_pos hfs]
      rw [ih ⟨st.fs, st.requests, st.successCount + 1⟩ hrest]
      dsimp only
      simp only [hfs, Bool.true_or, if_pos]
      omega
    · rw [if_neg hfs]
      have hfs' : (st.fs s.id).isSome = false := by
        simpa using hfs
      have hcong : ∀ c, rest.countP
            (fun r => ((writeFile st.fs s.id c) r.id).isSome ||
              env.outcome r.id == GenOutcome.success) =
          rest.countP
            (fun r => (st.fs r.id).isSome ||
              env.outcome r.id == GenOutcome.success) := by
        intro c
        apply List.countP_congr
        intro r hr
        have hne : r.id ≠ s.id := not_mem_map_id hs r hr
        simp [writeFile, hne]
      cases ho : env.outcome s.id <;>
        (simp only [generate_image, ho]
         rw [ih _ hrest]
         dsimp only
         simp only [hcong, hfs', ho, Bool.false_or]
         simp <;> omega)

/-- Counterexample to claim C4: with the API key present, one empty response
per scene, and an empty output directory, `generate_visuals` produces
literally zero images (both paths still hold no file), yet it does not raise:
it returns `False` through the ordinary path. -/
theorem generate_visuals_zero_images_no_raise_cx :
    visView (generate_visuals envEmptyResp demoScenes emptyFs) "scene-001" =
      some (0, none, ["scene-001", "scene-002"], false) ∧
    visView (generate_visuals envEmptyResp demoScenes emptyFs) "scene-002" =
      some (0, none, ["scene-001", "scene-002"], false) := ⟨rfl, rfl⟩

/-- Claim C4 as amended: with the API key present and pairwise-distinct scene
ids, `generate_visuals` never raises; it returns `True` exactly when every
scene succeeded (a pre-existing image file counting as a success) and `False`
otherwise — including when zero scenes succeeded.  The only exception it can
surface is the missing-API-key configuration error, which is independent of
the success count. -/
theorem generate_visuals_true_iff_all (env : GenEnv) (scenes : List Scene)
    (fs : FileMap) (hkey : env.apiKeyPresent = true)
    (hnd : (scenes.map Scene.id).Nodup) :
    ∃ st : VisState,
      generate_visuals env scenes fs = .ok (st,
        scenes.all (fun s => (fs s.id).isSome ||
          env.outcome s.id == GenOutcome.success)) := by
  refine ⟨visLoop env scenes ⟨fs, [], 0⟩, ?_⟩
  have hc := visLoop_count env scenes ⟨fs, [], 0⟩ hnd
  dsimp only at hc
  rw [Nat.zero_add] at hc
  have hbool : ((visLoop env scenes ⟨fs, [], 0⟩).successCount == scenes.length) =
      scenes.all (fun s => (fs s.id).isSome ||
        env.outcome s.id == GenOutcome.success) := by
    rw [hc]
    cases hall : scenes.all
        (fun s => (fs s.id).isSome || env.outcome s.id == GenOutcome.success) with
    | false =>
      have hnotall : ¬ ∀ s ∈ scenes,
          ((fs s.id).isSome || env.outcome s.id == GenOutcome.success) = true := by
        intro hforall
        rw [← List.all_eq_true] at hforall
        rw [hforall] at hall
        exact Bool.noConfusion hall
      have hne : scenes.countP
          (fun s => (fs s.id).isSome || env.outcome s.id == GenOutcome.success) ≠
          scenes.length := by
        rw [Ne, List.countP_eq_length]
        exact hnotall
      exact beq_eq_false_iff_ne.mpr hne
    | true =>
      have heq : scenes.countP
          (fun s => (fs s.id).isSome || env.outcome s.id == GenOutcome.success) =
          scenes.length :=
        List.countP_eq_length.mpr (List.all_eq_true.mp hall)
      simp [heq]
  rw [generate_visuals]
  simp only [hkey, if_true]
  rw [hbool]

/-- Witness for the amended C4: a run in which every request succeeds returns
the all-scenes boolean. -/
theorem generate_visuals_true_iff_all_witness :
    ∃ st : VisState,
      generate_visuals envOk demoScenes emptyFs = .ok (st,
        demoScenes.all (fun s => (emptyFs s.id).isSome ||
          envOk.outcome s.id == GenOutcome.success)) :=
  generate_visuals_true_iff_all envOk demoScenes emptyFs rfl (by decide)

theorem visLoop_all_present (env : GenEnv) :
    ∀ (scenes : List Scene) (st : VisState),
      (∀ s ∈ scenes, (st.fs s.id).isSome = true) →
      visLoop env scenes st =
        ⟨st.fs, st.requests, st.successCount + scenes.length⟩ := by
  intro scenes
  induction scenes with
  | nil =>
    intro st _
    cases st
    simp [visLoop]
  | cons s rest ih =>
    intro st hall
    have h1 : (st.fs s.id).isSome := hall s (by simp)
    rw [visLoop, if_pos h1]
    rw [ih ⟨st.fs, st.requests, st.successCount + 1⟩
      (fun r hr => hall r (by simp [hr]))]
    dsimp only
    simp only [VisState.mk.injEq, List.length_cons]
    exact ⟨trivial, trivial, by omega⟩

theorem visLoop_preserves_existing (env : GenEnv) :
    ∀ (scenes : List Scene) (st : VisState) (p : String),
      (st.fs p).isSome = true → p ∉ st.requests →
      (visLoop env scenes st).fs p = st.fs p ∧
        p ∉ (visLoop env scenes st).requests := by
  intro scenes
  induction scenes with
  | nil => intro st p _ hr; exact ⟨rfl, hr⟩
  | cons s rest ih =>
    intro st p hp hr
    rw [visLoop]
    by_cases hfs : (st.fs s.id).isSome
    · rw [if_pos hfs]
      exact ih _ p hp hr
    · rw [if_neg hfs]
      have hne : p ≠ s.id := by
        intro he
        rw [he] at hp
        exact hfs hp
      have hw : ∀ c, writeFile st.fs s.id c p = st.fs p := by
        intro c
        rw [writeFile]
        simp [hne]
      have hreq : p ∉ st.requests ++ [s.id] := by
        simp [hr, hne]
      cases ho : env.outcome s.id with
      | success =>
        simp only [generate_image, ho]
        have h := ih ⟨writeFile st.fs s.id (env.genContent s.id),
            st.requests ++ [s.id], st.successCount + 1⟩ p
          (by dsimp only; rw [hw]; exact hp) (by dsimp only; exact hreq)
        dsimp only at h
        exact ⟨h.1.trans (hw _), h.2⟩
      | emptyResponse =>
        simp only [generate_image, ho]
        have h := ih ⟨st.fs, st.requests ++ [s.id], st.successCount⟩ p
          (by dsimp only; exact hp) (by dsimp only; exact hreq)
        dsimp only at h
        exact h
      | genError =>
        simp only [generate_image, ho]
        have h := ih ⟨writeFile st.fs s.id (env.placeholderContent s.id),
            st.requests ++ [s.id], st.successCount⟩ p
          (by dsimp only; rw [hw]; exact hp) (by dsimp only; exact hreq)
        dsimp only at h
        exact ⟨h.1.trans (hw _), h.2⟩

theorem writeFile_isSome_mono (fs : FileMap) (sid : String) (c : Nat) :
    ∀ q, (fs q).isSome = true → ((writeFile fs sid c) q).isSome = true := by
  intro q hq
  rw [writeFile]
  by_cases he : (q == sid) = true
  · simp [he]
  · simp only [he]
    simpa using hq

theorem visLoop_count_lower (env : GenEnv) :
    ∀ (scenes : List Scene) (st : VisState),
      st.successCount + scenes.countP (fun s => (st.fs s.id).isSome) ≤
        (visLoop env scenes st).successCount := by
  intro scenes
  induction scenes with
  | nil => intro st; simp [visLoop]
  | cons s rest ih =>
    intro st
    rw [visLoop, List.countP_cons]
    by_cases hfs : (st.fs s.id).isSome
    · rw [if_pos hfs]
      have h := ih ⟨st.fs, st.requests, st.successCount + 1⟩
      dsimp only at h
      simp only [hfs, if_pos]
      omega
    · rw [if_neg hfs]
      have hfs' : (st.fs s.id).isSome = false := by simpa using hfs
      cases ho : env.outcome s.id with
      | success =>
        simp only [generate_image, ho]
        have h := ih ⟨writeFile st.fs s.id (env.genContent s.id),
          st.requests ++ [s.id], st.successCount + 1⟩
        dsimp only at h
        have hmono : rest.countP (fun r => (st.fs r.id).isSome) ≤
            rest.countP
              (fun r => ((writeFile st.fs s.id (env.genContent s.id)) r.id).isSome) :=
          List.countP_mono_left
            (fun r _ hr => writeFile_isSome_mono st.fs s.id _ r.id hr)
        simp only [hfs', if_true, if_false]
        simp only [Bool.false_eq_true, if_false]
        omega
      | emptyResponse =>
        simp only [generate_image, ho]
        have h := ih ⟨st.fs, st.requests ++ [s.id], st.successCount⟩
        dsimp only at h
        simp only [hfs', Bool.false_eq_true, if_false]
        omega
      | genError =>
        simp only [generate_image, ho]
        have h := ih ⟨writeFile st.fs s.id (env.placeholderContent s.id),
          st.requests ++ [s.id], st.successCount⟩
        dsimp only at h
        have hmono : rest.countP (fun r => (st.fs r.id).isSome) ≤
            rest.countP
              (fun r => ((writeFile st.fs s.id (env.placeholderContent s.id)) r.id).isSome) :=
          List.countP_mono_left
            (fun r _ hr => writeFile_isSome_mono st.fs s.id _ r.id hr)
        simp only [hfs', Bool.false_eq_true, if_false]
        omega

/-- Claim C5: for every scene whose target file already exists — in any
directory state, fully or partially populated — `generate_visuals` leaves
that file byte-for-byte unchanged, issues no generation request for its path,
and counts it as a success (the success count is at least the number of
scenes whose file pre-exists); hence re-running on a fully populated
directory performs no generation calls at all, leaves every file unchanged,
and returns `True`. -/
theorem generate_visuals_idempotent (env : GenEnv) (scenes : List Scene)
    (fs : FileMap) (hkey : env.apiKeyPresent = true) :
    ∃ st : VisState, ∃ b : Bool,
      generate_visuals env scenes fs = .ok (st, b) ∧
      (∀ p, (fs p).isSome = true → st.fs p = fs p ∧ p ∉ st.requests) ∧
      scenes.countP (fun s => (fs s.id).isSome) ≤ st.successCount ∧
      ((∀ s ∈ scenes, (fs s.id).isSome = true) →
        st = ⟨fs, [], scenes.length⟩ ∧ b = true) := by
  refine ⟨visLoop env scenes ⟨fs, [], 0⟩,
    (visLoop env scenes ⟨fs, [], 0⟩).successCount == scenes.length,
    ?_, ?_, ?_, ?_⟩
  · rw [generate_visuals]
    simp only [hkey, if_true]
  · intro p hp
    have h := visLoop_preserves_existing env scenes ⟨fs, [], 0⟩ p
      (by dsimp only; exact hp) (by dsimp only; exact List.not_mem_nil p)
    dsimp only at h
    exact h
  · have h := visLoop_count_lower env scenes ⟨fs, [], 0⟩
    dsimp only at h
    omega
  · intro hall
    rw [visLoop_all_present env scenes ⟨fs, [], 0⟩ hall]
    dsimp only
    refine ⟨?_, ?_⟩
    · rw [Nat.zero_add]
    · simp

/-- Witness for C5 at a partially populated directory: the pre-existing
`scene-001.png` is untouched and unrequested even though the service — which
would raise on any request — must run for the other scene. -/
theorem generate_visuals_idempotent_witness :
    ∃ st : VisState, ∃ b : Bool,
      generate_visuals envErr demoScenes demoFsPartial = .ok (st, b) ∧
      (∀ p, (demoFsPartial p).isSome = true →
        st.fs p = demoFsPartial p ∧ p ∉ st.requests) ∧
      demoScenes.countP (fun s => (demoFsPartial s.id).isSome) ≤ st.successCount ∧
      ((∀ s ∈ demoScenes, (demoFsPartial s.id).isSome = true) →
        st = ⟨demoFsPartial, [], demoScenes.length⟩ ∧ b = true) :=
  generate_visuals_idempotent envErr demoScenes demoFsPartial rfl

/-- Counterexample to claim C8: on an empty service response `generate_image`
returns `False` but writes no placeholder — the output path stays absent. -/
theorem generate_image_empty_response_no_placeholder_cx :
    (generate_image envEmptyResp "scene-001" emptyFs).2 = false ∧
    (generate_image envEmptyResp "scene-001" emptyFs).1 "scene-001" = none :=
  ⟨rfl, rfl⟩

/-- Claim C8 as amended: on every failure `generate_image` catches without
raising and returns `False`; a locally rendered placeholder is written only
on the raised-error branch, while an empty response leaves the output path
untouched. -/
theorem generate_image_failure_behavior (env : GenEnv) (sid : String)
    (fs : FileMap) (hfail : env.outcome sid ≠ GenOutcome.success) :
    (generate_image env sid fs).2 = false ∧
    (generate_image env sid fs).1 sid =
      (if env.outcome sid == GenOutcome.genError
       then some (env.placeholderContent sid) else fs sid) := by
  cases ho : env.outcome sid with
  | success => exact absurd ho hfail
  | emptyResponse => simp [generate_image, ho]
  | genError => simp [generate_image, ho, writeFile]

/-- Witness for the amended C8 at the raised-error branch: the placeholder
content appears at the output path and `False` is returned. -/
theorem generate_image_failure_behavior_witness :
    (generate_image envErr "scene-001" emptyFs).2 = false ∧
    (generate_image envErr "scene-001" emptyFs).1 "scene-001" = some 200 := by
  have h := generate_image_failure_behavior envErr "scene-001" emptyFs (by decide)
  exact ⟨h.1, h.2.trans rfl⟩

theorem collectClips_eq_presentEntries (avail : String → Bool) :
    ∀ timing, collectClips avail timing = presentEntries avail timing := by
  intro timing
  induction timing with
  | nil => rfl
  | cons t rest ih =>
    rw [collectClips]
    by_cases h : avail t.scene_id
    · simp [presentEntries, List.filter_cons, h,
        show collectClips avail rest = presentEntries avail rest from ih,
        presentEntries]
    · simp [presentEntries, List.filter_cons, h,
        show collectClips avail rest = presentEntries avail rest from ih,
        presentEntries]

/-- Claim C6: when some entries' images are missing but at least one is
present, `create_video_from_scenes` does not fail: it skips exactly the
missing entries and produces the video made of the present entries' clips, in
original table order, each with its declared duration. -/
theorem assembly_skips_missing (avail : String → Bool)
    (timing : List TimingEntry)
    (_hmiss : ∃ t ∈ timing, avail t.scene_id = false)
    (hpres : ∃ t ∈ timing, avail t.scene_id = true) :
    create_video_from_scenes avail timing =
      some (presentEntries avail timing) := by
  rw [create_video_from_scenes]
  rw [collectClips_eq_presentEntries]
  have hne : presentEntries avail timing ≠ [] := by
    obtain ⟨t, ht, hav⟩ := hpres
    intro hempty
    have hmem : (⟨t.scene_id, t.duration⟩ : Clip) ∈ presentEntries avail timing :=
      List.mem_map.mpr ⟨t, List.mem_filter.mpr ⟨ht, hav⟩, rfl⟩
    rw [hempty] at hmem
    exact absurd hmem (List.not_mem_nil _)
  rw [if_neg (by simpa [List.isEmpty_iff] using hne)]

/-- Witness for C6: the spec's three-entry table with entry 2's image absent
yields the video of entries 1 and 3, in that order. -/
theorem assembly_skips_missing_witness :
    create_video_from_scenes avail3 timing3 =
      some [⟨"scene-001", 4⟩, ⟨"scene-003", 2⟩] := by
  have h := assembly_skips_missing avail3 timing3
    ⟨⟨"scene-002", 4⟩, List.mem_cons_of_mem _ (List.mem_cons_self _ _), rfl⟩
    ⟨⟨"scene-001", 4⟩, List.mem_cons_self _ _, rfl⟩
  rw [h]
  rfl

/-- Counterexample to claim C7: a run in which every timing entry's image is
missing terminates with the ordinary boolean `False` return of
`assemble_video` — no exception propagates out of the assembly stage. -/
theorem no_content_returns_false_cx :
    assemble_video (some [⟨"scene-001", 4⟩]) (fun _ => false) true =
      .ok false := rfl

/-- Claim C7 as amended: collecting zero usable scenes is not a propagating
exception: `create_video_from_scenes` returns `None` and `assemble_video`
converts it to the same `False` return used for every other stage-internal
assembly error. -/
theorem no_content_converted_to_false (timing : List TimingEntry)
    (avail : String → Bool) (exportOk : Bool)
    (hzero : collectClips avail timing = []) :
    assemble_video (some timing) avail exportOk = .ok false := by
  simp only [assemble_video, create_video_from_scenes, hzero]
  rfl

/-- Witness for the amended C7 at the empty timing table. -/
theorem no_content_converted_to_false_witness :
    assemble_video (some []) (fun _ => true) true = .ok false :=
  no_content_converted_to_false [] (fun _ => true) true rfl

end VideoFactory
